import Mathlib

/-!
# Verification of the BugKSA bot core (`src/main.py`)

Shallow embedding of the anti-spam governor, the content quality gate
(the identity gate), the Gemini generation-retry loop, the posting /
dedupe control flow, and the startup credential checks of `main.py`.

Modelling conventions:
* Unix timestamps are `Int` (the code uses `int(time.time())`; `Int`
  avoids truncated subtraction artefacts).
* `random.randint` / `random.choice` / API outcomes are lifted to
  explicit parameters, so theorems quantify over every draw.
* Python's string operations are modelled by structural functions over
  `List Char` (`pyLower`, `pyStrip`, `pyWords`, `pyReplace`, ...);
  lowering is ASCII case folding — all alphabetic data in the
  repository's word lists is ASCII or Arabic, and Arabic has no case.
* The governor's reason strings carry, in Python, an extra formatted
  diagnostic suffix for the first two checks
  (e.g. `"min_gap (42s < 600s)"`); the embedding keeps the constant
  identifying prefix, which is what distinguishes the constraints.
-/

set_option maxRecDepth 4000
set_option maxHeartbeats 1000000

namespace BugKSA

/-! ## Governor configuration (`main.py` lines 61-68) -/

def MIN_GAP_SECONDS : Int := 600
def MAX_PER_HOUR : Nat := 6
def MAX_PER_DAY : Nat := 25
def DERBY_BURST_MAX_30MIN : Nat := 3
def HUMANIZE_EXTRA_LOW : Int := 300
def HUMANIZE_EXTRA_HIGH : Int := 900

/-! ## State (`load_state` defaults, lines 373-406) -/

/-- The governor-relevant part of the JSON state dictionary. -/
structure BotState where
  replied_tweet_ids : List String := []
  actions_log : List Int := []
  last_action_ts : Int := 0
  derby_burst_log : List Int := []
  next_action_after : Int := 0
  recent_metaphors : List String := []
  liked_tweet_ids : List String := []
  deriving Repr, DecidableEq

/-- Python `lst[-n:]`: keep the last `n` elements. -/
def pyTailStr (n : Nat) (l : List String) : List String := l.drop (l.length - n)

/-- `save_state` (lines 409-420): trims the bounded lists and prunes the
two rolling logs; `now` stands for the two `now_ts()` calls made inside. -/
def save_state (s : BotState) (now : Int) : BotState :=
  { s with
    replied_tweet_ids := pyTailStr 500 s.replied_tweet_ids
    liked_tweet_ids := pyTailStr 500 s.liked_tweet_ids
    actions_log := s.actions_log.filter (fun t => now - 86400 ≤ t)
    derby_burst_log := s.derby_burst_log.filter (fun t => now - 1800 ≤ t)
    recent_metaphors := pyTailStr 20 s.recent_metaphors }

/-- `record_action` (lines 423-434): append the timestamp `t`, set the
humanized not-before window with jitter `extra` (the `random.randint`
draw), then flush via `save_state`. -/
def record_action (s : BotState) (t extra : Int) : BotState :=
  save_state
    { s with
      actions_log := s.actions_log ++ [t]
      last_action_ts := t
      next_action_after := t + MIN_GAP_SECONDS + extra } t

/-! ## Anti-spam governor (`governor_allows`, lines 440-478) -/

/-- Line 465: `sum(1 for t in log_ts if now - t < 3600)`. -/
def hourly_count (log : List Int) (now : Int) : Nat :=
  (log.filter (fun t => now - t < 3600)).length

/-- Line 469: `len(log_ts)` — every entry of the in-memory log counts. -/
def daily_count (log : List Int) : Nat := log.length

/-- Line 475: `sum(1 for t in burst if now - t < 1800)`. -/
def burst_count (burst : List Int) (now : Int) : Nat :=
  (burst.filter (fun t => now - t < 1800)).length

/-- `governor_allows` (lines 440-478); `now` stands for the internal
`now_ts()` call. -/
def governor_allows (s : BotState) (derby : Bool) (now : Int) : Bool × String :=
  if now < s.next_action_after then
    (false, "humanized_gap")
  else if s.last_action_ts ≠ 0 ∧ now - s.last_action_ts < MIN_GAP_SECONDS then
    (false, "min_gap")
  else if MAX_PER_HOUR ≤ hourly_count s.actions_log now then
    (false, "hourly_cap")
  else if MAX_PER_DAY ≤ daily_count s.actions_log then
    (false, "daily_cap")
  else if derby = true ∧ DERBY_BURST_MAX_30MIN ≤ burst_count s.derby_burst_log now then
    (false, "derby_burst_cap")
  else
    (true, "ok")

/-! ## Theorems about the governor -/

/-- C1: `governor_allows` returns `(true, "ok")` iff all five constraints
hold simultaneously — the humanized not-before timestamp has elapsed, at
least `MIN_GAP_SECONDS` have passed since the last action (when there was
one), fewer than `MAX_PER_HOUR` actions fall in the trailing 3600 s, fewer
than `MAX_PER_DAY` actions count toward the daily cap, and (for derby
events only) fewer than `DERBY_BURST_MAX_30MIN` burst actions fall in the
trailing 1800 s; when it returns `false`, the reason identifies the first
failing constraint in that fixed order. -/
theorem governor_allows_conjunction (s : BotState) (derby : Bool) (now : Int) :
    (governor_allows s derby now = (true, "ok") ↔
      (s.next_action_after ≤ now ∧
       (s.last_action_ts = 0 ∨ MIN_GAP_SECONDS ≤ now - s.last_action_ts) ∧
       hourly_count s.actions_log now < MAX_PER_HOUR ∧
       daily_count s.actions_log < MAX_PER_DAY ∧
       (derby = true → burst_count s.derby_burst_log now < DERBY_BURST_MAX_30MIN)))
    ∧ (now < s.next_action_after →
        governor_allows s derby now = (false, "humanized_gap"))
    ∧ (s.next_action_after ≤ now →
       (s.last_action_ts ≠ 0 ∧ now - s.last_action_ts < MIN_GAP_SECONDS) →
        governor_allows s derby now = (false, "min_gap"))
    ∧ (s.next_action_after ≤ now →
       (s.last_action_ts = 0 ∨ MIN_GAP_SECONDS ≤ now - s.last_action_ts) →
       MAX_PER_HOUR ≤ hourly_count s.actions_log now →
        governor_allows s derby now = (false, "hourly_cap"))
    ∧ (s.next_action_after ≤ now →
       (s.last_action_ts = 0 ∨ MIN_GAP_SECONDS ≤ now - s.last_action_ts) →
       hourly_count s.actions_log now < MAX_PER_HOUR →
       MAX_PER_DAY ≤ daily_count s.actions_log →
        governor_allows s derby now = (false, "daily_cap"))
    ∧ (s.next_action_after ≤ now →
       (s.last_action_ts = 0 ∨ MIN_GAP_SECONDS ≤ now - s.last_action_ts) →
       hourly_count s.actions_log now < MAX_PER_HOUR →
       daily_count s.actions_log < MAX_PER_DAY →
       derby = true → DERBY_BURST_MAX_30MIN ≤ burst_count s.derby_burst_log now →
        governor_allows s derby now = (false, "derby_burst_cap")) := by
  unfold governor_allows
  split_ifs with h0 h1 h2 h3 h4 <;>
    refine ⟨?_, ?_, ?_, ?_, ?_, ?_⟩ <;>
    simp_all [Prod.mk.injEq] <;>
    omega

/-- Witness for C1 at a concrete fresh state. -/
theorem governor_allows_conjunction_witness :
    governor_allows {} false 10000 = (true, "ok") :=
  (governor_allows_conjunction {} false 10000).1.mpr (by decide)

/-- C2 counterexample: the daily-cap branch does NOT restrict itself to
the trailing 86400 s.  A state whose in-memory log holds 25 actions all
older than 24 h (timestamp 0, checked at `now = 100000`) is rejected with
`daily_cap`, although zero logged actions have `timestamp ≥ now − 86400`
— so stale entries do count toward the daily cap, contrary to the claim. -/
theorem governor_daily_counts_stale_entries_cex :
    governor_allows { actions_log := List.replicate 25 0 } false 100000 =
      (false, "daily_cap")
    ∧ ((List.replicate 25 (0 : Int)).filter
        (fun t => (100000 : Int) - 86400 ≤ t)).length = 0 := by
  constructor
  · rfl
  · rfl

/-- C2 (amended): the hourly check counts exactly the logged actions with
`timestamp > now − 3600` and the derby-burst check exactly the burst
entries with `timestamp > now − 1800`, even in the presence of stale
entries; but the daily-cap check counts every entry of the in-memory log
regardless of age (whenever it holds `MAX_PER_DAY` entries the governor
cannot answer `(true, "ok")`, however stale they are); pruning of the
24 h / 30 min windows happens only in `save_state`. -/
theorem governor_window_semantics (s : BotState) (derby : Bool) (now : Int) :
    (hourly_count s.actions_log now =
      (s.actions_log.filter (fun t => now - 3600 < t)).length)
    ∧ (burst_count s.derby_burst_log now =
      (s.derby_burst_log.filter (fun t => now - 1800 < t)).length)
    ∧ ((save_state s now).actions_log =
        s.actions_log.filter (fun t => now - 86400 ≤ t))
    ∧ ((save_state s now).derby_burst_log =
        s.derby_burst_log.filter (fun t => now - 1800 ≤ t))
    ∧ (MAX_PER_DAY ≤ s.actions_log.length →
        governor_allows s derby now ≠ (true, "ok")) := by
  refine ⟨?_, ?_, rfl, rfl, ?_⟩
  · unfold hourly_count
    congr 1
    apply List.filter_congr
    intro t _
    simp only [decide_eq_decide]
    omega
  · unfold burst_count
    congr 1
    apply List.filter_congr
    intro t _
    simp only [decide_eq_decide]
    omega
  · intro hlen hok
    have := (governor_allows_conjunction s derby now).1.mp hok
    have hd : daily_count s.actions_log < MAX_PER_DAY := this.2.2.2.1
    unfold daily_count at hd
    omega

/-- Witness for the amended C2 at a concrete state and time. -/
theorem governor_window_semantics_witness :
    governor_allows { actions_log := List.replicate 25 0 } true 77777 ≠
      (true, "ok") :=
  (governor_window_semantics { actions_log := List.replicate 25 0 } true
      77777).2.2.2.2 (by decide)

/-- C6: after `record_action` at time `t` with jitter `extra` drawn from
`[HUMANIZE_EXTRA_LOW, HUMANIZE_EXTRA_HIGH]`, the governor denies every
request strictly before `t + MIN_GAP_SECONDS + extra`; in particular it
denies for at least `MIN_GAP_SECONDS` after the action, for every prior
state and derby flag. -/
theorem record_action_blocks_window (s : BotState) (derby : Bool)
    (t extra now : Int)
    (hlo : HUMANIZE_EXTRA_LOW ≤ extra) (hhi : extra ≤ HUMANIZE_EXTRA_HIGH) :
    (now < t + MIN_GAP_SECONDS + extra →
      (governor_allows (record_action s t extra) derby now).1 = false)
    ∧ (now < t + MIN_GAP_SECONDS →
      (governor_allows (record_action s t extra) derby now).1 = false) := by
  have hnext : (record_action s t extra).next_action_after =
      t + MIN_GAP_SECONDS + extra := rfl
  constructor
  · intro hnow
    unfold governor_allows
    rw [hnext]
    rw [if_pos hnow]
  · intro hnow
    unfold governor_allows
    rw [hnext]
    have : now < t + MIN_GAP_SECONDS + extra := by
      unfold HUMANIZE_EXTRA_LOW at hlo
      omega
    rw [if_pos this]

/-- Witness for C6: a concrete recorded action blocks a request 100 s
(and also 899 s) later. -/
theorem record_action_blocks_window_witness :
    (governor_allows (record_action {} 5000 300) false 5100).1 = false ∧
    (governor_allows (record_action {} 5000 300) false 5899).1 = false :=
  ⟨(record_action_blocks_window {} false 5000 300 5100
      (by decide) (by decide)).2 (by decide),
   (record_action_blocks_window {} false 5000 300 5899
      (by decide) (by decide)).1 (by decide)⟩

/-! ## Identity gate: quality filters (`main.py` lines 135-363)

String helpers mirroring the Python operations used by the gate. -/

/-- Python `needle in hay` (contiguous substring test). -/
def strContains (hay needle : String) : Bool :=
  hay.data.tails.any (fun suf => needle.data.isPrefixOf suf)

/-- Python `s.lower()` (ASCII case folding; the word lists are ASCII or
caseless Arabic). -/
def pyLower (s : String) : String := String.mk (s.data.map Char.toLower)

/-- Strip leading and trailing whitespace, Python `s.strip()`. -/
def pyStrip (s : String) : String :=
  String.mk
    (((s.data.dropWhile Char.isWhitespace).reverse.dropWhile
        Char.isWhitespace).reverse)

/-- Accumulator loop behind `pyWords`. -/
def pyWordsGo : List Char → List Char → List String
  | [], [] => []
  | [], acc => [String.mk acc.reverse]
  | c :: rest, acc =>
    if c.isWhitespace then
      match acc with
      | [] => pyWordsGo rest []
      | _ :: _ => String.mk acc.reverse :: pyWordsGo rest []
    else pyWordsGo rest (c :: acc)

/-- Python `s.split()`: split on whitespace runs, dropping empty fields. -/
def pyWords (s : String) : List String := pyWordsGo s.data []

/-- Fuel-driven core of `pyReplace`; fuel `= l.length` always suffices
for a non-empty pattern. -/
def pyReplaceGo (pat rep : List Char) : Nat → List Char → List Char
  | 0, l => l
  | _ + 1, [] => []
  | fuel + 1, c :: rest =>
    if pat ≠ [] ∧ pat.isPrefixOf (c :: rest) then
      rep ++ pyReplaceGo pat rep fuel ((c :: rest).drop pat.length)
    else
      c :: pyReplaceGo pat rep fuel rest

/-- Python `s.replace(pat, rep)`: leftmost, non-overlapping (all the
patterns used by the code — `"_"`, `".exe"`, `".dll"` — are non-empty). -/
def pyReplace (s pat rep : String) : String :=
  String.mk (pyReplaceGo pat.data rep.data s.data.length s.data)

/-- `_GENERIC_PHRASES` (lines 138-163). -/
def _GENERIC_PHRASES : List String := [
  "stats are crazy", "this season", "great match", "good result",
  "well played", "played well", "impressive performance", "both teams",
  "exciting game", "strong performance", "tough match", "quality football",
  "incredible match", "wow what a", "what a game", "great game",
  "dominated the", "very competitive", "amazing display",
  "very impressive", "what a performance", "top quality",
  "played brilliantly", "superb display", "clinical finishing",
  "outstanding result", "absolutely incredible", "well deserved",
  "great effort", "solid game", "nice result", "looking good",
  "credit to both", "credit where it", "has to be said",
  "gotta say", "not gonna lie", "ngl,", "honestly though",
  "fair play to", "respect to",
  "إحصائيات رائعة", "أداء رائع", "كلا الفريقين", "مباراة ممتازة",
  "نتيجة جيدة", "أداء قوي", "لعبوا جيدًا", "لعبوا بشكل",
  "مباراة مثيرة", "مباراة رائعة",
  "مباراة حماسية", "تفوق واضح", "نتيجة متوقعة",
  "أداء متميز", "مستوى عالٍ", "فريق قوي",
  "انتصار مستحق", "أداء استثنائي", "مباراة قوية",
  "الفريق بذل جهداً", "بالتوفيق للفريقين",
  "ما شاء الله", "الله يوفقهم", "شاطرين", "عاشوا"]

/-- `_TECH_WORDS` (lines 166-174); a Python set, modelled as the listing
order (only membership is ever used, except `sorted()` in
`_extract_tech_metaphor`). -/
def _TECH_WORDS : List String := [
  "lag", "timeout", "bug", "404", "patch", "server", "crash", "firewall",
  "cache", "deployment", "memory", "leak", "loop", "null", "error", "stack",
  "overflow", "hotfix", "debug", "kernel", "panic", "cpu", "buffer", "ping",
  "rollback", "deploy",
  "beta", "plugin", "script", "exe", "edition", "build", "reboot", "mode",
  "سيرفر", "لاق", "باق", "تايم أوت"]

/-- `_SARCASM_SIGNALS` (lines 177-181). -/
def _SARCASM_SIGNALS : List String := [
  "?", "!", "💀", "😂", "🤣", "🤦", "😭", "🤡", "💔", "🔥",
  "bro", "lol", "smh", "wtf",
  "يا ", "خلاص", "ما ", "والله"]

/-- `_EN_BANTER_TOKENS` (lines 185-214): canonical handle → mock lexicon. -/
def _EN_BANTER_TOKENS : List (String × List String) := [
  ("ManUtd", ["museum fc", "404 trophies", "nostalgia build",
              "glory days patch", "old trafford.exe"]),
  ("ChelseaFC", ["billion-dollar beta", "chaos patch", "no stable release",
                 "owner swap edition", "chelseafc reboot"]),
  ("Arsenal", ["almost fc", "beta champions", "april crash",
               "always next year.exe", "bottle mode"]),
  ("SpursOfficial", ["no-trophy mode", "empty cabinet.exe", "bottle.exe",
                     "final-stage crash", "lilywhite timeout"]),
  ("LFC", ["pressing.exe stuck", "var dependency", "legacy cache",
           "klopp.exe exited", "anfield nostalgia build"]),
  ("ManCity", ["financial plugin", "115 charges edition", "fpl owner mode",
               "fair play firewall", "city bot"]),
  ("FCBarcelona", ["economic levers", "debt mode", "ghost payroll",
                   "barca token", "laporta.dll"]),
  ("realmadrid", ["ucl script", "plot armor", "final boss mode",
                  "referee.dll", "bernabeu cheat code"]),
  ("juventusfc", ["calciopoli cache", "old lady patch", "scudetto rollback",
                  "juventus bios"]),
  ("PSG_inside", ["qsi.exe", "galactico overflow",
                  "trophies not found in europe", "psg kernel"]),
  ("FCBayern", ["bundesliga autopilot", "german efficiency build",
                "rekordmeister loop", "bundesliga.exe"]),
  ("BVB", ["sell-first protocol", "almost champions.exe",
           "dortmund 404", "silverware not found"]),
  ("Atleti", ["grind mode fc", "defensive kernel", "simeone.exe",
              "0-0 build"]),
  ("LCFC", ["miracle patch", "2016 legacy build", "foxes memory leak",
            "vardy.dll"])]

/-- `_EN_BANTER_TOKENS_FLAT` (lines 217-221): every token of every club. -/
def _EN_BANTER_TOKENS_FLAT : List String :=
  (_EN_BANTER_TOKENS.map Prod.snd).foldr (· ++ ·) []

/-- `_EN_CLUB_ALIASES` (lines 225-240). -/
def _EN_CLUB_ALIASES : List String := [
  "manchester united", "man utd", "man united",
  "chelsea",
  "arsenal", "gunners",
  "tottenham", "spurs",
  "liverpool",
  "manchester city", "man city",
  "barcelona", "barca",
  "real madrid", "madrid",
  "juventus", "juve",
  "psg", "paris saint-germain",
  "bayern", "fc bayern",
  "dortmund", "bvb",
  "atletico",
  "leicester"]

/-- `_AR_CLUB_NAMES` (lines 258-263). -/
def _AR_CLUB_NAMES : List String := [
  "الهلال", "النصر", "الاتحاد", "الأهلي", "القادسية",
  "الشباب", "الفيصلي", "التعاون", "الفتح", "الرائد",
  "هلال", "نصر", "اتحاد", "أهلي"]

/-- `looks_generic` (lines 243-249): denylisted phrase in the lowered
text, or more than 25 words without any tech keyword. -/
def looks_generic (text : String) : Bool :=
  let t := pyLower text
  _GENERIC_PHRASES.any (fun p => strContains t p) ||
    ((pyWords t).length > 25 && !_TECH_WORDS.any (fun w => strContains t w))

/-- `has_tech_metaphor` (lines 252-254). -/
def has_tech_metaphor (text : String) : Bool :=
  _TECH_WORDS.any (fun w => strContains (pyLower text) w)

/-- `has_club_jab` (lines 266-280): English aliases or banter tokens on
the lowered text, Arabic club names on the original text. -/
def has_club_jab (text : String) : Bool :=
  let t := pyLower text
  _EN_CLUB_ALIASES.any (fun al => strContains t al) ||
  _EN_BANTER_TOKENS_FLAT.any (fun token => strContains t token) ||
  _AR_CLUB_NAMES.any (fun name => strContains text name)

/-- `has_sarcasm_marker` (lines 283-285): checked on the original text. -/
def has_sarcasm_marker (text : String) : Bool :=
  _SARCASM_SIGNALS.any (fun sig => strContains text sig)

/-- The normalisation step of `has_english_banter_token` (line 317):
underscore → space, strip `.exe` / `.dll`. -/
def en_normalise (raw : String) : String :=
  pyReplace (pyReplace (pyReplace raw "_" " ") ".exe" "") ".dll" ""

/-- `has_english_banter_token` (lines 305-327). -/
def has_english_banter_token (text : String) : Bool :=
  let raw := pyLower text
  let normalised := en_normalise raw
  if _EN_BANTER_TOKENS_FLAT.any (fun token => strContains raw token) then true
  else if _EN_BANTER_TOKENS_FLAT.any (fun token => strContains normalised token) then true
  else if !_EN_CLUB_ALIASES.any (fun al => strContains raw al) then true
  else false

/-- The 3-signal score summed at lines 351-355. -/
def core_score (text : String) : Nat :=
  (if has_tech_metaphor text then 1 else 0) +
  (if has_club_jab text then 1 else 0) +
  (if has_sarcasm_marker text then 1 else 0)

/-- `quality_ok` (lines 330-363).  Python's `if not text or
len(text.strip()) < 8` collapses to the trimmed-length test (an empty
string trims to length 0). -/
def quality_ok (text : String) (lang_hint : String) : Bool :=
  if (pyStrip text).data.length < 8 then false
  else if looks_generic text then false
  else if core_score text < 2 then false
  else if lang_hint == "en" && !has_english_banter_token text then false
  else true

/-! ## Theorems about the identity gate -/

/-- C3: any candidate whose lowercased text contains a denylisted generic
phrase is rejected by `quality_ok` under every language hint, regardless
of how many core signals it scores. -/
theorem quality_ok_generic_phrase_rejects (text lang : String)
    (h : _GENERIC_PHRASES.any (fun p => strContains (pyLower text) p) = true) :
    quality_ok text lang = false := by
  have hg : looks_generic text = true := by
    unfold looks_generic
    simp [h]
  simp [quality_ok, hg]

/-- Witness for C3: a concrete generic-phrase hit that scores well on the
core signals is still rejected (under both hints via two phrases). -/
theorem quality_ok_generic_phrase_rejects_witness :
    quality_ok "stats are crazy bro, arsenal crash!" "en" = false ∧
    quality_ok "stats are crazy bro, arsenal crash!" "ar" = false :=
  ⟨quality_ok_generic_phrase_rejects _ "en" (by decide),
   quality_ok_generic_phrase_rejects _ "ar" (by decide)⟩

/-- C10: a candidate of more than 25 whitespace-separated words whose
lowercased form contains no tech-vocabulary keyword is rejected by
`quality_ok` under every language hint: `looks_generic` treats long
tech-free text as generic, an unconditional hard reject. -/
theorem quality_ok_long_techfree_rejects (text lang : String)
    (hw : 25 < (pyWords (pyLower text)).length)
    (ht : _TECH_WORDS.any (fun w => strContains (pyLower text) w) = false) :
    quality_ok text lang = false := by
  have hb : decide ((pyWords (pyLower text)).length > 25) = true :=
    decide_eq_true hw
  have hg : looks_generic text = true := by
    unfold looks_generic
    simp [ht, hb]
  simp [quality_ok, hg]

/-- Witness for C10: 26 words, none containing a tech keyword. -/
theorem quality_ok_long_techfree_rejects_witness :
    quality_ok
      "so so so so so so so so so so so so so so so so so so so so so so so so so so"
      "ar" = false :=
  quality_ok_long_techfree_rejects _ "ar" (by decide) (by decide)

/-- C4 counterexample: the English hard block tests the FLAT set of every
club's banter tokens, not the tokens of the club actually mentioned.  The
text `"arsenal museum fc crash?"` mentions the recognized club alias
`"arsenal"` and contains none of Arsenal's own banter tokens (raw or
normalised), yet `quality_ok` ACCEPTS it under the English hint, because
`"museum fc"` — a Manchester United token — satisfies the flat-set
check.  The claim demands rejection here. -/
theorem quality_ok_crossclub_token_cex :
    quality_ok "arsenal museum fc crash?" "en" = true
    ∧ strContains (pyLower "arsenal museum fc crash?") "arsenal" = true
    ∧ (((_EN_BANTER_TOKENS.lookup "Arsenal").getD []).all
        (fun tok =>
          !(strContains (pyLower "arsenal museum fc crash?") tok ||
            strContains (en_normalise (pyLower "arsenal museum fc crash?")) tok)))
        = true := by
  refine ⟨by decide, by decide, by decide⟩

/-- C4 (amended): under the English hint, for a non-generic candidate of
trimmed length ≥ 8 scoring ≥ 2 of the 3 core signals: if a recognized
club alias appears but the text contains no banter token of ANY club
(neither raw nor after underscore/`.exe`/`.dll` normalisation — the check
uses the flat token set, not the mentioned club's own tokens),
`quality_ok` rejects; if no recognized club alias appears at all, the
token requirement is waived and the candidate is accepted. -/
theorem quality_ok_english_token_gate (text : String)
    (hng : looks_generic text = false)
    (hlen : 8 ≤ (pyStrip text).data.length)
    (hscore : 2 ≤ core_score text) :
    ((_EN_BANTER_TOKENS_FLAT.any
        (fun tok => strContains (pyLower text) tok) = false) →
     (_EN_BANTER_TOKENS_FLAT.any
        (fun tok => strContains (en_normalise (pyLower text)) tok) = false) →
     (_EN_CLUB_ALIASES.any (fun al => strContains (pyLower text) al) = true) →
      quality_ok text "en" = false)
    ∧ ((_EN_CLUB_ALIASES.any (fun al => strContains (pyLower text) al) = false) →
        quality_ok text "en" = true) := by
  have h8 : ¬((pyStrip text).data.length < 8) := by omega
  have hs : ¬(core_score text < 2) := by omega
  constructor
  · intro hraw hnorm hal
    have hbt : has_english_banter_token text = false := by
      unfold has_english_banter_token
      simp [hraw, hnorm, hal]
    simp [quality_ok, h8, hng, hs, hbt]
  · intro hal
    have hbt : has_english_banter_token text = true := by
      unfold has_english_banter_token
      simp [hal]
    have h8' : ¬((pyStrip text).length < 8) := h8
    simp [quality_ok, h8, h8', hng, hs, hbt]

/-- Witness for the amended C4: a recognized alias with no banter token
from any club is rejected under the English hint. -/
theorem quality_ok_english_token_gate_witness :
    quality_ok "arsenal defending crash?" "en" = false :=
  (quality_ok_english_token_gate "arsenal defending crash?"
      (by decide) (by decide) (by decide)).1
    (by decide) (by decide) (by decide)

/-! ## Generation-retry loop (`_generate_gemini`, lines 617-731)

The external Gemini call is lifted to an `oracle : Nat → Except Unit
String`: attempt `i` either raises (`.error ()`) or returns raw text.
`random.choice` over the fallback pool is lifted to an index.  The
404-model-switch bookkeeping and logging inside the `except` branch only
affect which model later attempts use — that is folded into the oracle —
and the `recent_metaphors` state append on success does not affect the
returned string, which is what the claims are about. -/

/-- Python string lexicographic order (code-point wise). -/
def charListLt : List Char → List Char → Bool
  | [], [] => false
  | [], _ :: _ => true
  | _ :: _, [] => false
  | a :: as, b :: bs => if a < b then true else if a = b then charListLt as bs else false

/-- Insert into an ascending list (helper for `sortedStrings`). -/
def insertSortedStr (x : String) : List String → List String
  | [] => [x]
  | y :: ys => if charListLt x.data y.data then x :: y :: ys else y :: insertSortedStr x ys

/-- Python `sorted(...)` on strings (insertion sort; ascending). -/
def sortedStrings (l : List String) : List String := l.foldr insertSortedStr []

/-- `_extract_tech_metaphor` (lines 292-302): first tech keyword of the
lowered text, iterating `sorted(_TECH_WORDS)`. -/
def _extract_tech_metaphor (text : String) : Option String :=
  (sortedStrings _TECH_WORDS).find? (fun w => strContains (pyLower text) w)

/-- Python `str.splitlines` restricted to the `\n`, `\r`, `\r\n` breaks
(the only line breaks occurring in LLM text). -/
def splitlinesGo : List Char → List Char → List String
  | [], [] => []
  | [], acc => [String.mk acc.reverse]
  | '\r' :: '\n' :: rest, acc => String.mk acc.reverse :: splitlinesGo rest []
  | '\r' :: rest, acc => String.mk acc.reverse :: splitlinesGo rest []
  | '\n' :: rest, acc => String.mk acc.reverse :: splitlinesGo rest []
  | c :: rest, acc => splitlinesGo rest (c :: acc)

/-- Python `" ".join(l)`. -/
def joinSpaceGo : List String → List Char
  | [] => []
  | [s] => s.data
  | s :: t :: rest => s.data ++ ' ' :: joinSpaceGo (t :: rest)

/-- Line 678: `" ".join(text.splitlines()).strip()[:240]`. -/
def normalize_reply (text : String) : String :=
  String.mk ((pyStrip (String.mk (joinSpaceGo (splitlinesGo text.data [])))).data.take 240)

/-- `_quality_check_candidate` (lines 617-639) without its logging
arguments: `none` = rejected (gate failure or repeated metaphor),
`some m` = pass with extracted metaphor (`""` when no tech word). -/
def _quality_check_candidate (reply lang : String)
    (recent : List String) : Option String :=
  if quality_ok reply lang = false then none
  else
    match _extract_tech_metaphor reply with
    | some m => if recent.contains m then none else some m
    | none => some ""

/-- `_FALLBACK_REPLIES` (lines 490-497). -/
def _FALLBACK_REPLIES : List String := [
  "السيرفر يهنق والمباراة ما وقفت! 😂 هذا الدوري مو رحيم",
  "لاق ما وقف والضربة دخلت 😂 هذا مو دفاع، هذا timeout",
  "الكرة في الشبكة والـ bug بعد شايل! 😭",
  "تايم أوت من الدفاع وما رجعوا 🤦 والسيرفر مصدق",
  "error 404: الدفاع غير موجود 💀 هذا موسم وايد قاسي",
  "الـ server crash والمباراة ما توقف 😂 هذا الكورة"]

/-- `_pick_fallback` (lines 501-502); the `random.choice` draw lifted to
an index `k`. -/
def _pick_fallback (k : Nat) : String :=
  _FALLBACK_REPLIES.getD (k % _FALLBACK_REPLIES.length) ""

/-- Whatever the draw, `_pick_fallback` yields a pool member. -/
theorem pick_fallback_mem (k : Nat) : _pick_fallback k ∈ _FALLBACK_REPLIES := by
  unfold _pick_fallback
  have h : k % _FALLBACK_REPLIES.length < _FALLBACK_REPLIES.length :=
    Nat.mod_lt _ (by decide)
  rw [List.getD_eq_getElem _ _ h]
  exact List.getElem_mem h

/-- The `for attempt in range(3)` loop of `_generate_gemini`
(lines 666-725), indexed by remaining attempts `r` (the attempt index is
`3 − r`) and the running `api_error_count`; after the loop, fallback on
`api_error_count == 3`, empty string otherwise. -/
def gemini_attempts (oracle : Nat → Except Unit String) (lang : String)
    (recent : List String) (fbk : Nat) : Nat → Nat → String
  | 0, errs => if errs = 3 then _pick_fallback fbk else ""
  | r + 1, errs =>
    match oracle (3 - (r + 1)) with
    | .error _ => gemini_attempts oracle lang recent fbk r (errs + 1)
    | .ok text =>
      let reply := normalize_reply text
      match _quality_check_candidate reply lang recent with
      | none => gemini_attempts oracle lang recent fbk r errs
      | some _ => reply

/-- `generate_reply` = `_generate_gemini` (lines 728-731 delegate). -/
def generate_reply (oracle : Nat → Except Unit String) (lang : String)
    (recent : List String) (fbk : Nat) : String :=
  gemini_attempts oracle lang recent fbk 3 0

/-- C5: if all 3 attempts raise generator exceptions, `generate_reply`
returns a member of the fallback pool; every pool member passes
`quality_ok` under both the Arabic and the English hint; and if at least
one attempt returned text but no candidate passed the quality check,
`generate_reply` returns the empty string. -/
theorem generate_reply_fallback_and_empty (oracle : Nat → Except Unit String)
    (lang : String) (recent : List String) (fbk : Nat) :
    ((∀ i, i < 3 → oracle i = .error ()) →
      generate_reply oracle lang recent fbk ∈ _FALLBACK_REPLIES)
    ∧ (∀ r ∈ _FALLBACK_REPLIES, quality_ok r "ar" = true ∧ quality_ok r "en" = true)
    ∧ ((∃ i t, i < 3 ∧ oracle i = .ok t) →
       (∀ i t, i < 3 → oracle i = .ok t →
          _quality_check_candidate (normalize_reply t) lang recent = none) →
        generate_reply oracle lang recent fbk = "") := by
  refine ⟨?_, by decide, ?_⟩
  · intro h
    have e0 := h 0 (by omega)
    have e1 := h 1 (by omega)
    have e2 := h 2 (by omega)
    have hrw : generate_reply oracle lang recent fbk = _pick_fallback fbk := by
      simp [generate_reply, gemini_attempts, e0, e1, e2]
    rw [hrw]
    exact pick_fallback_mem fbk
  · intro h1 h2
    rcases ho0 : oracle 0 with u0 | t0 <;> rcases ho1 : oracle 1 with u1 | t1 <;>
      rcases ho2 : oracle 2 with u2 | t2
    · exfalso
      obtain ⟨i, t, hi, hok⟩ := h1
      interval_cases i <;> simp_all
    · have q2 := h2 2 t2 (by omega) ho2
      simp [generate_reply, gemini_attempts, ho0, ho1, ho2, q2]
    · have q1 := h2 1 t1 (by omega) ho1
      simp [generate_reply, gemini_attempts, ho0, ho1, ho2, q1]
    · have q1 := h2 1 t1 (by omega) ho1
      have q2 := h2 2 t2 (by omega) ho2
      simp [generate_reply, gemini_attempts, ho0, ho1, ho2, q1, q2]
    · have q0 := h2 0 t0 (by omega) ho0
      simp [generate_reply, gemini_attempts, ho0, ho1, ho2, q0]
    · have q0 := h2 0 t0 (by omega) ho0
      have q2 := h2 2 t2 (by omega) ho2
      simp [generate_reply, gemini_attempts, ho0, ho1, ho2, q0, q2]
    · have q0 := h2 0 t0 (by omega) ho0
      have q1 := h2 1 t1 (by omega) ho1
      simp [generate_reply, gemini_attempts, ho0, ho1, ho2, q0, q1]
    · have q0 := h2 0 t0 (by omega) ho0
      have q1 := h2 1 t1 (by omega) ho1
      have q2 := h2 2 t2 (by omega) ho2
      simp [generate_reply, gemini_attempts, ho0, ho1, ho2, q0, q1, q2]

/-- Witness for C5: with every attempt raising, the returned string is
one of the pre-vetted fallbacks. -/
theorem generate_reply_fallback_witness :
    generate_reply (fun _ => .error ()) "ar" [] 4 ∈ _FALLBACK_REPLIES :=
  (generate_reply_fallback_and_empty (fun _ => .error ()) "ar" [] 4).1
    (fun _ _ => rfl)

/-! ## Posting and the duplicate-content path
(`post_reply` lines 782-815, mention handling lines 966-992)

`x.create_tweet` outcomes are lifted to a `TweetResult`; the message of a
raised exception stands for the lowered combination `err_str + resp_body
+ api_msgs` that the code assembles before substring-matching it. -/

inductive TweetResult where
  | success : TweetResult
  | forbiddenMsg (msg : String) : TweetResult
  | errMsg (msg : String) : TweetResult
  deriving Repr, DecidableEq

/-- The conversation-control test of lines 808-809. -/
def is_conversation_error (msg : String) : Bool :=
  strContains msg "not allowed" || strContains msg "conversation" ||
  strContains msg "mentioned" || strContains msg "349"

/-- `post_reply` (lines 782-815): final quality gate, then create-tweet;
a `tweepy.Forbidden` with a conversation-control message falls back to a
quote tweet (`quoteRes`); every other exception propagates (`.error`).
`t`/`extra` feed the `record_action` performed on success. -/
def post_reply (dryRun : Bool) (s : BotState) (text lang : String)
    (res quoteRes : TweetResult) (t extra : Int) : Except String BotState :=
  if quality_ok text lang = false then .ok s
  else if dryRun then .ok (record_action s t extra)
  else
    match res with
    | .success => .ok (record_action s t extra)
    | .forbiddenMsg msg =>
      if is_conversation_error msg then
        match quoteRes with
        | .success => .ok (record_action s t extra)
        | .forbiddenMsg m2 => .error m2
        | .errMsg m2 => .error m2
      else .error msg
    | .errMsg msg => .error msg

/-- The mention-publishing fragment of `monitor_mentions_and_snipes`
(lines 966-992): call `post_reply`; on a raised duplicate-content error
mark the item handled and re-save; on any other raised error re-raise; on
normal return mark handled, log a derby burst if applicable, and save.
Returns the new state, the in-memory replied set, and `did_action`. -/
def mention_step (dryRun : Bool) (s : BotState) (rset : List String)
    (tid text lang : String) (res quoteRes : TweetResult) (derby : Bool)
    (t extra now : Int) : Except String (BotState × List String × Bool) :=
  match post_reply dryRun s text lang res quoteRes t extra with
  | .ok s1 =>
    let s2 := { s1 with
      replied_tweet_ids := s1.replied_tweet_ids ++ [tid]
      derby_burst_log :=
        if derby then s1.derby_burst_log ++ [now] else s1.derby_burst_log }
    .ok (save_state s2 now, rset ++ [tid], true)
  | .error msg =>
    if strContains msg "duplicate" || strContains msg "187" then
      .ok (save_state { s with replied_tweet_ids := s.replied_tweet_ids ++ [tid] } now,
           rset ++ [tid], false)
    else .error msg

/-- Concrete state for the C7 counterexample: one stale logged action. -/
def s7 : BotState := { actions_log := [0] }

/-- C7 counterexample: on a duplicate-content rejection the mention
handler re-saves the state, and `save_state` prunes `actions_log` — here
the stale entry `0` is dropped at `now = 100000`, so `actions_log` is NOT
left unchanged (it goes from `[0]` to `[]`), contrary to the claim; the
item is still marked handled and nothing is appended to the log. -/
theorem duplicate_handling_prunes_actions_log_cex :
    mention_step false s7 [] "42" "arsenal almost fc?" "en"
        (.errMsg "duplicate content") .success false 100000 350 100000 =
      .ok ({ replied_tweet_ids := ["42"] }, ["42"], false)
    ∧ s7.actions_log = [0] := by
  exact ⟨rfl, rfl⟩

/-- C7 (amended): `record_action` runs exactly once per successful
publish and never on a failed or rejected attempt — when the final
quality gate rejects, `post_reply` returns the state untouched; on a
successful create-tweet it returns exactly `record_action s t extra`; and
on a raised duplicate-content error the mention handler marks the item in
the dedupe set and re-saves, appending nothing to the governor's log and
leaving `last_action_ts` and `next_action_after` unchanged —
`actions_log` undergoes only `save_state`'s routine pruning of entries
older than 24 h. -/
theorem post_reply_record_frame (dryRun : Bool) (s : BotState)
    (rset : List String) (tid text lang msg : String)
    (res quoteRes : TweetResult) (derby : Bool) (t extra now : Int) :
    (quality_ok text lang = false →
      post_reply dryRun s text lang res quoteRes t extra = .ok s)
    ∧ (quality_ok text lang = true → dryRun = false →
        post_reply dryRun s text lang .success quoteRes t extra =
          .ok (record_action s t extra))
    ∧ (post_reply dryRun s text lang res quoteRes t extra = .error msg →
       (strContains msg "duplicate" || strContains msg "187") = true →
        mention_step dryRun s rset tid text lang res quoteRes derby t extra now =
          .ok (save_state
                { s with replied_tweet_ids := s.replied_tweet_ids ++ [tid] } now,
               rset ++ [tid], false)
        ∧ (save_state
            { s with replied_tweet_ids := s.replied_tweet_ids ++ [tid] }
            now).last_action_ts = s.last_action_ts
        ∧ (save_state
            { s with replied_tweet_ids := s.replied_tweet_ids ++ [tid] }
            now).next_action_after = s.next_action_after
        ∧ (save_state
            { s with replied_tweet_ids := s.replied_tweet_ids ++ [tid] }
            now).actions_log = s.actions_log.filter (fun x => now - 86400 ≤ x)) := by
  refine ⟨?_, ?_, ?_⟩
  · intro h
    simp [post_reply, h]
  · intro h hd
    simp [post_reply, h, hd]
  · intro herr hdup
    refine ⟨?_, rfl, rfl, rfl⟩
    unfold mention_step
    rw [herr]
    simp [hdup]

/-- Witness for the amended C7 at concrete inputs (gate-reject leaves the
state untouched; a successful publish records exactly once). -/
theorem post_reply_record_frame_witness :
    post_reply false s7 "well played" "ar" .success .success 5000 350 = .ok s7
    ∧ post_reply false s7 "arsenal almost fc?" "en" .success .success 5000 350 =
        .ok (record_action s7 5000 350) :=
  ⟨(post_reply_record_frame false s7 [] "42" "well played" "ar" ""
      .success .success false 5000 350 5000).1 (by decide),
   (post_reply_record_frame false s7 [] "42" "arsenal almost fc?" "en" ""
      .success .success false 5000 350 5000).2.1 (by decide) rfl⟩

/-! ## Startup configuration (`env`, lines 36-48; lazy Gemini init,
lines 654-659; cycle-level handler, lines 1091-1102) -/

/-- The environment variables relevant to the two external clients;
`none` = unset. -/
structure EnvMap where
  X_API_KEY : Option String := none
  X_API_SECRET : Option String := none
  X_ACCESS_TOKEN : Option String := none
  X_ACCESS_SECRET : Option String := none
  GEMINI_API_KEY : Option String := none
  deriving Repr, DecidableEq

/-- Python `(os.getenv(name) or "").strip()`. -/
def env_read (v : Option String) : String := pyStrip (v.getD "")

/-- `env` (lines 36-40): raise `RuntimeError` when a required variable is
missing or blank. -/
def env (name : String) (v : Option String) (required : Bool) :
    Except String String :=
  let s := env_read v
  if required = true ∧ s = "" then .error ("Missing required env var: " ++ name)
  else .ok s

/-- Module import, lines 45-48: the four X credentials are read eagerly
(an exception here aborts the process before the loop); `GEMINI_API_KEY`
is NOT read at import. -/
def startup_config (e : EnvMap) :
    Except String (String × String × String × String) := do
  let a ← env "X_API_KEY" e.X_API_KEY true
  let b ← env "X_API_SECRET" e.X_API_SECRET true
  let c ← env "X_ACCESS_TOKEN" e.X_ACCESS_TOKEN true
  let d ← env "X_ACCESS_SECRET" e.X_ACCESS_SECRET true
  return (a, b, c, d)

/-- Lazy Gemini client init (lines 654-659), executed on the FIRST
`generate_reply` call, which happens inside the event loop. -/
def gemini_lazy_init (e : EnvMap) : Except String String :=
  let key := pyStrip (e.GEMINI_API_KEY.getD "")
  if key = "" then .error "GEN_ENGINE=gemini requires GEMINI_API_KEY"
  else .ok key

/-- Outcome of one loop cycle as seen by the process. -/
inductive CycleFate where
  | continues : CycleFate
  | aborts : CycleFate
  deriving Repr, DecidableEq

/-- The `except Exception` handler at the top of the cycle (lines
1091-1102): EVERY exception raised inside a cycle is caught, logged and
followed by a sleep — the process never aborts from inside the loop. -/
def cycle_fate (r : Except String Unit) : CycleFate :=
  match r with
  | .ok _ => .continues
  | .error _ => .continues

/-- C8 counterexample: with the four X credentials present but
`GEMINI_API_KEY` missing, module import succeeds — the process reaches
the event loop with a missing required generator credential, which only
raises on the first generation attempt inside the loop, where the
cycle-level handler swallows it and the process keeps running.  The claim
that every missing client credential aborts at startup is false. -/
theorem missing_gemini_key_not_startup_fatal_cex :
    startup_config { X_API_KEY := some "k", X_API_SECRET := some "s",
                     X_ACCESS_TOKEN := some "t", X_ACCESS_SECRET := some "c" } =
      .ok ("k", "s", "t", "c")
    ∧ gemini_lazy_init { X_API_KEY := some "k", X_API_SECRET := some "s",
                         X_ACCESS_TOKEN := some "t", X_ACCESS_SECRET := some "c" } =
        .error "GEN_ENGINE=gemini requires GEMINI_API_KEY"
    ∧ cycle_fate (.error "GEN_ENGINE=gemini requires GEMINI_API_KEY") =
        .continues := by
  exact ⟨rfl, rfl, rfl⟩

/-- C8 (amended): a missing or blank value for any of the four X API
credentials aborts at module import, before the event loop, with the
matching `RuntimeError`; the text-generator key is different: its absence
does not abort startup — it raises on the first generation call inside
the loop and the cycle-level handler keeps the process running. -/
theorem startup_credential_abort (e : EnvMap) :
    (env_read e.X_API_KEY = "" →
      startup_config e = .error "Missing required env var: X_API_KEY")
    ∧ (env_read e.X_API_KEY ≠ "" → env_read e.X_API_SECRET = "" →
        startup_config e = .error "Missing required env var: X_API_SECRET")
    ∧ (env_read e.X_API_KEY ≠ "" → env_read e.X_API_SECRET ≠ "" →
       env_read e.X_ACCESS_TOKEN = "" →
        startup_config e = .error "Missing required env var: X_ACCESS_TOKEN")
    ∧ (env_read e.X_API_KEY ≠ "" → env_read e.X_API_SECRET ≠ "" →
       env_read e.X_ACCESS_TOKEN ≠ "" → env_read e.X_ACCESS_SECRET = "" →
        startup_config e = .error "Missing required env var: X_ACCESS_SECRET")
    ∧ (env_read e.GEMINI_API_KEY = "" →
        gemini_lazy_init e = .error "GEN_ENGINE=gemini requires GEMINI_API_KEY"
        ∧ cycle_fate ((gemini_lazy_init e).map (fun _ => ())) = .continues) := by
  refine ⟨?_, ?_, ?_, ?_, ?_⟩
  · intro h1
    have h1' : pyStrip (e.X_API_KEY.getD "") = "" := h1
    simp [startup_config, env, h1, h1']
    rfl
  · intro h1 h2
    have h1' : ¬(pyStrip (e.X_API_KEY.getD "") = "") := h1
    have h2' : pyStrip (e.X_API_SECRET.getD "") = "" := h2
    simp [startup_config, env, h1, h2, h1', h2']
    rfl
  · intro h1 h2 h3
    have h1' : ¬(pyStrip (e.X_API_KEY.getD "") = "") := h1
    have h2' : ¬(pyStrip (e.X_API_SECRET.getD "") = "") := h2
    have h3' : pyStrip (e.X_ACCESS_TOKEN.getD "") = "" := h3
    simp [startup_config, env, h1, h2, h3, h1', h2', h3']
    rfl
  · intro h1 h2 h3 h4
    have h1' : ¬(pyStrip (e.X_API_KEY.getD "") = "") := h1
    have h2' : ¬(pyStrip (e.X_API_SECRET.getD "") = "") := h2
    have h3' : ¬(pyStrip (e.X_ACCESS_TOKEN.getD "") = "") := h3
    have h4' : pyStrip (e.X_ACCESS_SECRET.getD "") = "" := h4
    simp [startup_config, env, h1, h2, h3, h4, h1', h2', h3', h4']
    rfl
  · intro h5
    have hg : gemini_lazy_init e =
        .error "GEN_ENGINE=gemini requires GEMINI_API_KEY" := by
      unfold gemini_lazy_init
      unfold env_read at h5
      simp [h5]
    exact ⟨hg, by rw [hg]; rfl⟩

/-- Witness for the amended C8: a blank `X_API_KEY` aborts import. -/
theorem startup_credential_abort_witness :
    startup_config { X_API_KEY := some "  " } =
      .error "Missing required env var: X_API_KEY" :=
  (startup_credential_abort { X_API_KEY := some "  " }).1 (by decide)

/-! ## The event loop's dedupe discipline
(`monitor_mentions_and_snipes`, lines 890-1110)

Per-item model of the two publishing paths.  Everything the loop samples
or receives for one item — the humanize-skip draw, the governor verdict,
the reply produced by the 3-attempt generation loop (`""` when no
candidate passed), the create-tweet outcomes, the per-item eligibility
flags of the snipe path — is packed into an `ItemEnv`.  A "publish
action referencing tid" is recorded whenever the loop reaches its
`post_reply` call for that item. -/

structure ItemEnv where
  humanSkip : Bool := false
  govAllow : Bool := true
  genReply : String := ""
  lang : String := "ar"
  res : TweetResult := .success
  quoteRes : TweetResult := .success
  startsRT : Bool := false
  httpSpam : Bool := false
  replyEveryone : Bool := true
  nonOriginal : Bool := false
  derby : Bool := false
  t : Int := 0
  extra : Int := 300
  now : Int := 0
  deriving Repr

/-- One mention item (lines 933-992): dedupe check first, then the
humanize skip, the governor, generation, and the publish with its
duplicate handling; a non-duplicate raise reaches the cycle handler,
which swallows it (the replied set keeps its value).  Result: (state,
replied set), plus the publish actions issued for this item. -/
def mention_item (dryRun : Bool) (s : BotState) (rset : List String)
    (tid : String) (it : ItemEnv) : (BotState × List String) × List String :=
  if tid ∈ rset then ((s, rset), [])
  else if it.humanSkip then ((s, rset), [])
  else if it.govAllow = false then ((s, rset), [])
  else if it.genReply = "" then
    ((save_state { s with replied_tweet_ids := s.replied_tweet_ids ++ [tid] } it.now,
      rset ++ [tid]), [])
  else
    match mention_step dryRun s rset tid it.genReply it.lang it.res it.quoteRes
        it.derby it.t it.extra it.now with
    | .ok (s1, rset1, _) => ((s1, rset1), [tid])
    | .error _ => ((s, rset), [tid])

/-- `_snipe_engage` (lines 761-779): like the tweet if not yet liked and
record it in the liked set and state (the like errors are swallowed). -/
def _snipe_engage (s : BotState) (lset : List String) (tid : String) :
    BotState × List String :=
  if tid ∈ lset then (s, lset)
  else ({ s with liked_tweet_ids := s.liked_tweet_ids ++ [tid] }, lset ++ [tid])

/-- One snipe item (lines 1027-1089): dedupe check first, then the
per-item eligibility filters, the humanize skip, the governor,
generation, the engage-like and the publish; the snipe path has no
duplicate-catch, so any raise reaches the cycle handler with the replied
set unchanged. -/
def snipe_item (dryRun : Bool) (s : BotState) (rset lset : List String)
    (tid : String) (it : ItemEnv) :
    (BotState × List String × List String) × List String :=
  if tid ∈ rset then ((s, rset, lset), [])
  else if it.startsRT then ((s, rset, lset), [])
  else if it.httpSpam then
    ((save_state { s with replied_tweet_ids := s.replied_tweet_ids ++ [tid] } it.now,
      rset ++ [tid], lset), [])
  else if it.replyEveryone = false then ((s, rset, lset), [])
  else if it.nonOriginal then ((s, rset, lset), [])
  else if it.humanSkip then ((s, rset, lset), [])
  else if it.govAllow = false then ((s, rset, lset), [])
  else if it.genReply = "" then
    ((save_state { s with replied_tweet_ids := s.replied_tweet_ids ++ [tid] } it.now,
      rset ++ [tid], lset), [])
  else
    let engaged := _snipe_engage s lset tid
    match post_reply dryRun engaged.1 it.genReply it.lang it.res it.quoteRes
        it.t it.extra with
    | .ok s1 =>
      ((save_state
          { s1 with
            replied_tweet_ids := s1.replied_tweet_ids ++ [tid]
            derby_burst_log :=
              if it.derby then s1.derby_burst_log ++ [it.now]
              else s1.derby_burst_log } it.now,
        rset ++ [tid], engaged.2), [tid])
    | .error _ => ((engaged.1, rset, engaged.2), [tid])

/-- A unit of work seen by the loop across cycles. -/
inductive LoopItem where
  | mention (tid : String) (it : ItemEnv) : LoopItem
  | snipe (tid : String) (it : ItemEnv) : LoopItem

/-- The loop's long-lived in-memory objects: the state dict, the
`replied_set`, and the `liked_set` (all survive caught cycle errors). -/
structure LoopSt where
  s : BotState := {}
  rset : List String := []
  lset : List String := []

/-- Dispatch one item through its path. -/
def loop_step (dryRun : Bool) (st : LoopSt) : LoopItem → LoopSt × List String
  | .mention tid it =>
    let r := mention_item dryRun st.s st.rset tid it
    (⟨r.1.1, r.1.2, st.lset⟩, r.2)
  | .snipe tid it =>
    let r := snipe_item dryRun st.s st.rset st.lset tid it
    (⟨r.1.1, r.1.2.1, r.1.2.2⟩, r.2)

/-- Run the loop over a sequence of items, collecting every publish
action issued. -/
def loop_run (dryRun : Bool) (st : LoopSt) : List LoopItem → LoopSt × List String
  | [] => (st, [])
  | ev :: evs =>
    let r1 := loop_step dryRun st ev
    let r2 := loop_run dryRun r1.1 evs
    (r2.1, r1.2 ++ r2.2)

/-- `mention_step` always reports the replied set grown by exactly the
handled id. -/
theorem mention_step_rset (dryRun : Bool) (s : BotState) (rset : List String)
    (tid text lang : String) (res quoteRes : TweetResult) (derby : Bool)
    (t extra now : Int) (s1 : BotState) (rset1 : List String) (d : Bool)
    (h : mention_step dryRun s rset tid text lang res quoteRes derby t extra now =
          .ok (s1, rset1, d)) :
    rset1 = rset ++ [tid] := by
  unfold mention_step at h
  rcases hp : post_reply dryRun s text lang res quoteRes t extra with msg | s2 <;>
    rw [hp] at h
  · by_cases hd : (strContains msg "duplicate" || strContains msg "187") = true
    · simp [hd] at h
      exact h.2.1.symm
    · simp [hd] at h
  · simp at h
    exact h.2.1.symm

/-- The replied set only grows across one item. -/
theorem loop_step_rset_mono (dryRun : Bool) (st : LoopSt) (ev : LoopItem)
    (x : String) (hx : x ∈ st.rset) :
    x ∈ (loop_step dryRun st ev).1.rset := by
  rcases ev with ⟨tid, it⟩ | ⟨tid, it⟩
  · show x ∈ (mention_item dryRun st.s st.rset tid it).1.2
    unfold mention_item
    split_ifs <;> try exact hx
    · exact List.mem_append_left _ hx
    · rcases hm : mention_step dryRun st.s st.rset tid it.genReply it.lang it.res
          it.quoteRes it.derby it.t it.extra it.now with msg | ⟨s1, rset1, d⟩
      · simp only [hm]
        exact hx
      · simp only [hm]
        rw [mention_step_rset _ _ _ _ _ _ _ _ _ _ _ _ _ _ _ hm]
        exact List.mem_append_left _ hx
  · show x ∈ (snipe_item dryRun st.s st.rset st.lset tid it).1.2.1
    unfold snipe_item
    rcases hp : post_reply dryRun (_snipe_engage st.s st.lset tid).1 it.genReply
        it.lang it.res it.quoteRes it.t it.extra with msg | s1 <;>
      simp only [hp] <;>
      split_ifs <;>
      first
        | exact hx
        | exact List.mem_append_left _ hx

/-- An item whose id is already in the replied set issues no publish. -/
theorem loop_step_no_republish (dryRun : Bool) (st : LoopSt) (ev : LoopItem)
    (x : String) (hx : x ∈ st.rset) :
    x ∉ (loop_step dryRun st ev).2 := by
  rcases ev with ⟨tid, it⟩ | ⟨tid, it⟩
  · show x ∉ (mention_item dryRun st.s st.rset tid it).2
    unfold mention_item
    by_cases hmem : tid ∈ st.rset
    · rw [if_pos hmem]
      exact List.not_mem_nil x
    · have hne : x ≠ tid := fun hxe => hmem (hxe ▸ hx)
      rw [if_neg hmem]
      split_ifs <;> try exact List.not_mem_nil x
      rcases hm : mention_step dryRun st.s st.rset tid it.genReply it.lang it.res
          it.quoteRes it.derby it.t it.extra it.now with msg | ⟨s1, rset1, d⟩ <;>
        simp [hm, hne]
  · show x ∉ (snipe_item dryRun st.s st.rset st.lset tid it).2
    unfold snipe_item
    by_cases hmem : tid ∈ st.rset
    · rw [if_pos hmem]
      exact List.not_mem_nil x
    · have hne : x ≠ tid := fun hxe => hmem (hxe ▸ hx)
      rw [if_neg hmem]
      rcases hp : post_reply dryRun (_snipe_engage st.s st.lset tid).1 it.genReply
          it.lang it.res it.quoteRes it.t it.extra with msg | s1 <;>
        simp only [hp] <;>
        split_ifs <;>
        simp [hne]

/-- C9: once an item id is in the in-memory replied set — after a
successful publish, a duplicate-content rejection, or an
exhausted-generation skip — no subsequent processing in the same process
lifetime issues a publish action referencing it, on either the mention
path or the timeline-sniping path. -/
theorem dedupe_never_republish (dryRun : Bool) (evs : List LoopItem)
    (x : String) :
    ∀ st : LoopSt, x ∈ st.rset → x ∉ (loop_run dryRun st evs).2 := by
  induction evs with
  | nil =>
    intro st _
    exact List.not_mem_nil x
  | cons ev evs ih =>
    intro st hx
    have h1 := loop_step_no_republish dryRun st ev x hx
    have h2 := loop_step_rset_mono dryRun st ev x hx
    have h3 := ih (loop_step dryRun st ev).1 h2
    intro hmem
    rcases List.mem_append.mp (by simpa [loop_run] using hmem) with h | h
    · exact h1 h
    · exact h3 h

/-- Witness for C9: a concrete already-handled id is never republished
over a concrete two-item trace that republishes nothing for it. -/
theorem dedupe_never_republish_witness :
    "42" ∉ (loop_run false
        { rset := ["42"] }
        [.mention "42" { genReply := "arsenal almost fc?", lang := "en" },
         .snipe "42" { genReply := "arsenal almost fc?", lang := "en" }]).2 :=
  dedupe_never_republish false _ "42" { rset := ["42"] } (by decide)

end BugKSA
